import Mathlib

/-!
Verification development for the rule-based recipe generation and nutrition
estimation pipeline of the Recipe Generator application.

The TypeScript sources are shallowly embedded:
* JavaScript strings become Lean `String`, string operations (`includes`,
  `startsWith`, `toLowerCase`, `trim`) are modelled over the underlying
  character lists;
* JavaScript numbers become `ℚ` (exact rational arithmetic; `Math.round`
  is `round`, which agrees with JavaScript's round-half-toward-positive
  semantics); the one place the code can divide by zero (the fat-percentage
  computation) is modelled with an explicit case split mirroring IEEE
  NaN/Infinity comparison behaviour;
* the impure ingredients of the code (`Date.now`, `Math.random`) are passed
  in as explicit parameters (`freshId`, `nameChoice`).
-/

/-- `sub` occurs as a contiguous run inside `l`. -/
def listInfixOf (sub : List Char) : List Char → Bool
  | [] => sub.isEmpty
  | c :: rest => sub.isPrefixOf (c :: rest) || listInfixOf sub rest

/-- JavaScript `s.includes(sub)`: substring containment. -/
def jsIncludes (s sub : String) : Bool :=
  listInfixOf sub.data s.data

/-- JavaScript `s.startsWith(pre)`. -/
def jsStartsWith (s pre : String) : Bool :=
  pre.data.isPrefixOf s.data

/-- JavaScript `s.endsWith(suf)`. -/
def jsEndsWith (s suf : String) : Bool :=
  suf.data.isSuffixOf s.data

/-- JavaScript `s.toLowerCase()` (ASCII lowering, as `Char.toLower`). -/
def jsToLower (s : String) : String :=
  ⟨s.data.map Char.toLower⟩

/-- JavaScript `s.trim()`: strip whitespace from both ends. -/
def jsTrim (s : String) : String :=
  ⟨((s.data.dropWhile Char.isWhitespace).reverse.dropWhile Char.isWhitespace).reverse⟩

/-- JavaScript `arr.join(sep)`. -/
def jsJoin (sep : String) (l : List String) : String :=
  String.intercalate sep l

/-- JavaScript `s || d` for strings: the empty string is falsy
(models an absent optional field as `""` as well). -/
def jsOrString (s d : String) : String :=
  if s = "" then d else s

/-! ## AIRecipeService: ingredient categorization
(`src/src/services/AIRecipeService.ts`, `categorizeIngredients`) -/

/-- The six buckets of `categorizeIngredients`. -/
inductive Category where
  | proteins | vegetables | grains | dairy | spices | others
deriving DecidableEq, Repr

/-- The `categoryMappings` table, in the object-literal (priority) order
used by `Object.entries` in the source. -/
def categoryMappings : List (Category × List String) :=
  [ (Category.proteins,
      ["chicken", "beef", "pork", "fish", "egg", "tofu", "beans", "lentils",
       "turkey", "salmon", "tuna"]),
    (Category.vegetables,
      ["tomato", "onion", "garlic", "carrot", "potato", "bell pepper",
       "spinach", "broccoli", "cucumber", "lettuce", "mushroom", "celery",
       "zucchini"]),
    (Category.grains,
      ["rice", "pasta", "bread", "quinoa", "oats", "flour", "noodles",
       "barley"]),
    (Category.dairy,
      ["milk", "cheese", "butter", "cream", "yogurt"]),
    (Category.spices,
      ["salt", "pepper", "basil", "oregano", "thyme", "cumin", "paprika",
       "garlic powder", "onion powder"]) ]

/-- One keyword list matches the (already lower-cased) ingredient:
`lowerIngredient.includes(item) || item.includes(lowerIngredient)`. -/
def matchesKeywords (lowerIngredient : String) (items : List String) : Bool :=
  items.any fun item =>
    jsIncludes lowerIngredient item || jsIncludes item lowerIngredient

/-- The category an ingredient lands in: the first entry of
`categoryMappings` whose keyword list matches (the inner `for`/`break`),
`others` when none matches. -/
def classifyOne (ingredient : String) : Category :=
  let lowerIngredient := jsToLower ingredient
  match categoryMappings.find? (fun p => matchesKeywords lowerIngredient p.2) with
  | some p => p.1
  | none => Category.others

/-- The record of buckets returned by `categorizeIngredients`. -/
structure CategorizedIngredients where
  proteins : List String
  vegetables : List String
  grains : List String
  dairy : List String
  spices : List String
  others : List String
deriving DecidableEq, Repr

def emptyCategories : CategorizedIngredients :=
  ⟨[], [], [], [], [], []⟩

/-- `categories[category].push(ingredient)` for the chosen bucket. -/
def pushCategory (c : CategorizedIngredients) (cat : Category) (ing : String) :
    CategorizedIngredients :=
  match cat with
  | Category.proteins => { c with proteins := c.proteins ++ [ing] }
  | Category.vegetables => { c with vegetables := c.vegetables ++ [ing] }
  | Category.grains => { c with grains := c.grains ++ [ing] }
  | Category.dairy => { c with dairy := c.dairy ++ [ing] }
  | Category.spices => { c with spices := c.spices ++ [ing] }
  | Category.others => { c with others := c.others ++ [ing] }

/-- `categorizeIngredients`: each ingredient is pushed into the bucket of
its first matching category (or `others`), in input order. -/
def categorizeIngredients (ingredients : List String) : CategorizedIngredients :=
  ingredients.foldl (fun acc ing => pushCategory acc (classifyOne ing) ing)
    emptyCategories

/-- Total number of ingredients across the six buckets. -/
def bucketsTotal (c : CategorizedIngredients) : Nat :=
  c.proteins.length + c.vegetables.length + c.grains.length + c.dairy.length +
    c.spices.length + c.others.length

/-! ## Shared data model (`src/src/types/index.ts`) -/

/-- `NutritionInfo`: the seven nutrition fields (JavaScript numbers,
modelled as exact rationals). -/
structure NutritionInfo where
  calories : ℚ
  protein : ℚ
  carbs : ℚ
  fat : ℚ
  fiber : ℚ
  sugar : ℚ
  sodium : ℚ
deriving DecidableEq, Repr

def zeroNutrition : NutritionInfo := ⟨0, 0, 0, 0, 0, 0, 0⟩

/-- An ingredient row of a recipe (`id`, `name`, `quantity`, `unit`,
`category`); absent optional fields are modelled as `""`. -/
structure Ingredient where
  id : String
  name : String
  quantity : String
  unit : String
  category : String
deriving DecidableEq, Repr

/-- The `Recipe` object. `createdAt` (a `Date`) is environment-dependent
and carried by no claim, so it is not modelled. -/
structure Recipe where
  id : String
  name : String
  description : String
  ingredients : List Ingredient
  steps : List String
  cookingTime : ℚ
  servings : ℚ
  difficulty : String
  cuisine : String
  tags : List String
  nutrition : NutritionInfo
deriving Repr

/-- `RecipeGenerationRequest` (the fields the rule-based path reads;
`excludeIngredients` and `preferences` are never consulted by it). -/
structure RecipeGenerationRequest where
  ingredients : List String
  mealType : Option String
  cookingTime : Option ℚ
  servings : Option ℚ
deriving Repr

/-- The `ApiResponse<Recipe>` shape returned by the generator. -/
structure RecipeResponse where
  success : Bool
  data : Option Recipe
  error : Option String
  message : Option String
deriving Repr

/-! ## AIRecipeService: rule-based composition
(`createRuleBasedRecipe`, `generateCookingSteps` and helpers) -/

/-- Decimal rendering of a number interpolated into a template literal.
It agrees with JavaScript on integers, which are the only values the
theorems below ever render. -/
def numToString (q : ℚ) : String :=
  if q.den = 1 then toString q.num
  else toString q.num ++ "/" ++ toString q.den

/-- `generateRecipeName`: `nameChoice` stands for the
`Math.floor(Math.random() * namePatterns.length)` draw. -/
def generateRecipeName (ingredients : List String) (mealType : String)
    (nameChoice : Nat) : String :=
  if ingredients.length = 0 then "Mixed " ++ mealType
  else
    let namePatterns : List String :=
      [ jsJoin " and " ingredients ++ " " ++ mealType,
        ingredients.headD "" ++ " with " ++ jsJoin " and " (ingredients.drop 1),
        jsJoin "-" ingredients ++ " Delight",
        "Homestyle " ++ jsJoin " " ingredients ++ " Bowl" ]
    namePatterns.getD (nameChoice % namePatterns.length) ""

/-- `proteins.some(p => ['chicken', 'beef', 'pork'].some(meat =>
p.toLowerCase().includes(meat)))`. -/
def hasMeatProtein (proteins : List String) : Bool :=
  proteins.any fun p =>
    ["chicken", "beef", "pork"].any fun meat => jsIncludes (jsToLower p) meat

/-- `proteins.some(p => p.toLowerCase().includes('egg'))`. -/
def hasEggProtein (proteins : List String) : Bool :=
  proteins.any fun p => jsIncludes (jsToLower p) "egg"

def prepStep : String :=
  "Wash and prepare all ingredients. Chop vegetables and measure out spices."

def meatStep (proteins : List String) (cookingTime : ℚ) : String :=
  "Heat oil in a large pan over medium-high heat. Cook " ++
    jsJoin " and " proteins ++
    " until browned and cooked through, about " ++
    numToString (min (cookingTime * 0.4) 15) ++ " minutes."

def eggStep : String := "Beat eggs in a bowl and set aside for later use."

/-- The protein-cooking segment of `generateCookingSteps`. -/
def proteinSteps (proteins : List String) (cookingTime : ℚ) : List String :=
  if proteins.length > 0 then
    if hasMeatProtein proteins then [meatStep proteins cookingTime]
    else if hasEggProtein proteins then [eggStep]
    else []
  else []

/-- `vegetables.filter(v => ['carrot', 'potato', 'onion'].some(hv =>
v.toLowerCase().includes(hv)))`. -/
def hardVeggiesOf (vegetables : List String) : List String :=
  vegetables.filter fun v =>
    ["carrot", "potato", "onion"].any fun hv => jsIncludes (jsToLower v) hv

/-- `vegetables.filter(v => !hardVeggies.includes(v))`. -/
def softVeggiesOf (vegetables : List String) : List String :=
  vegetables.filter fun v => !(hardVeggiesOf vegetables).contains v

/-- The vegetable segment of `generateCookingSteps`. -/
def vegetableSteps (vegetables : List String) (cookingTime : ℚ) : List String :=
  if vegetables.length > 0 then
    let hardVeggies := hardVeggiesOf vegetables
    let softVeggies := softVeggiesOf vegetables
    (if hardVeggies.length > 0 then
      ["Add " ++ jsJoin " and " hardVeggies ++ " to the pan and cook for " ++
        numToString (min (cookingTime * 0.3) 10) ++ " minutes until softened."]
     else []) ++
    (if softVeggies.length > 0 then
      ["Add " ++ jsJoin " and " softVeggies ++ " and cook for another " ++
        numToString (min (cookingTime * 0.2) 5) ++ " minutes."]
     else [])
  else []

/-- The grain segment of `generateCookingSteps`. -/
def grainSteps (grains : List String) : List String :=
  if grains.length > 0 then
    if grains.any (fun g => jsIncludes (jsToLower g) "rice") then
      ["Add rice with appropriate amount of water or broth. Cover and simmer until tender."]
    else if grains.any (fun g => jsIncludes (jsToLower g) "pasta") then
      ["Cook pasta according to package directions. Drain and add to the pan."]
    else []
  else []

/-- The seasoning segment of `generateCookingSteps`. -/
def seasoningSteps (spices : List String) : List String :=
  if spices.length > 0 then
    ["Season with " ++ jsJoin ", " spices ++ " to taste."]
  else []

def stirStep : String :=
  "Stir everything together and cook for a few more minutes until heated through. Taste and adjust seasoning as needed."

def serveStep : String := "Serve hot and enjoy!"

/-- `generateCookingSteps`: the sequential `steps.push(...)` calls of the
source, written as list concatenation in push order. -/
def generateCookingSteps (c : CategorizedIngredients) (cookingTime : ℚ) :
    List String :=
  [prepStep] ++ proteinSteps c.proteins cookingTime ++
    vegetableSteps c.vegetables cookingTime ++ grainSteps c.grains ++
    seasoningSteps c.spices ++ [stirStep, serveStep]

/-- `createIngredientsWithQuantities`. -/
def createIngredientsWithQuantities (ingredients : List String)
    (servings : ℚ) : List Ingredient :=
  ingredients.mapIdx fun index ingredient =>
    let lowerIngredient := jsToLower ingredient
    let qu : String × String :=
      if ["salt", "pepper"].any (fun s => jsIncludes lowerIngredient s) then
        ("1", "tsp")
      else if ["garlic", "ginger"].any (fun s => jsIncludes lowerIngredient s) then
        ("2", "cloves")
      else if ["onion", "tomato", "potato"].any (fun s => jsIncludes lowerIngredient s) then
        (toString ⌈servings / 2⌉, "medium")
      else if ["rice", "pasta"].any (fun s => jsIncludes lowerIngredient s) then
        (toString ⌈servings / 4⌉, "cup")
      else if ["oil", "butter"].any (fun s => jsIncludes lowerIngredient s) then
        ("2", "tbsp")
      else
        (toString ⌈servings / 2⌉, "piece")
    { id := "ing_" ++ toString index, name := ingredient,
      quantity := qu.1, unit := qu.2, category := "" }

def asianKeywords : List String := ["soy sauce", "ginger", "rice"]
def italianKeywords : List String := ["pasta", "tomato", "basil"]
def indianKeywords : List String := ["cumin", "coriander", "turmeric"]
def mexicanKeywords : List String := ["lime", "cilantro", "chili"]

/-- The space-joined lower-cased ingredient names `determineCuisine`
searches in. -/
def joinedIngredientNames (ingredients : List Ingredient) : String :=
  jsJoin " " (ingredients.map fun ing => jsToLower ing.name)

/-- `determineCuisine`: each group is tested with `.some`, so a single
keyword occurrence selects the group's cuisine. -/
def determineCuisine (ingredients : List Ingredient) : String :=
  let ingredientNames := joinedIngredientNames ingredients
  if asianKeywords.any (fun asian => jsIncludes ingredientNames asian) then
    "Asian"
  else if italianKeywords.any (fun italian => jsIncludes ingredientNames italian) then
    "Italian"
  else if indianKeywords.any (fun indian => jsIncludes ingredientNames indian) then
    "Indian"
  else if mexicanKeywords.any (fun mexican => jsIncludes ingredientNames mexican) then
    "Mexican"
  else "International"

/-- `generateTags`. -/
def generateTags (c : CategorizedIngredients) (mealType : String) :
    List String :=
  [jsToLower mealType] ++
    (if c.proteins.length = 0 then ["vegetarian"] else []) ++
    (if c.dairy.length = 0 && c.proteins.length = 0 then ["vegan"] else []) ++
    (if c.vegetables.length > c.proteins.length then ["healthy"] else []) ++
    ["homemade", "easy"]

/-- `calculateDifficulty`. -/
def calculateDifficulty (stepCount cookingTime ingredientCount : ℚ) : String :=
  let score := stepCount * 0.3 + cookingTime * 0.01 + ingredientCount * 0.1
  if score < 3 then "Easy"
  else if score < 6 then "Medium"
  else "Hard"

/-- `createRuleBasedRecipe`. `freshId` stands for the `generateId()` draw
and `nameChoice` for the random template index. -/
def createRuleBasedRecipe (c : CategorizedIngredients) (mealType : String)
    (cookingTime servings : ℚ) (freshId : String) (nameChoice : Nat) :
    Recipe :=
  let mainIngredients := (c.proteins ++ c.vegetables ++ c.grains).take 3
  let recipeName := generateRecipeName mainIngredients mealType nameChoice
  let steps := generateCookingSteps c cookingTime
  let recipeIngredients := createIngredientsWithQuantities
    (c.proteins ++ c.vegetables ++ c.grains ++ c.dairy ++ c.spices ++ c.others)
    servings
  { id := freshId,
    name := recipeName,
    description := "A delicious " ++ jsToLower mealType ++ " made with " ++
      jsJoin ", " mainIngredients,
    ingredients := recipeIngredients,
    steps := steps,
    cookingTime := cookingTime,
    servings := servings,
    difficulty := calculateDifficulty (steps.length : ℚ) cookingTime
      (recipeIngredients.length : ℚ),
    cuisine := determineCuisine recipeIngredients,
    tags := generateTags c mealType,
    nutrition := zeroNutrition }

/-- `generateRuleBasedRecipe`: destructuring defaults
`mealType = 'Dinner'`, `cookingTime = 30`, `servings = 4`. -/
def generateRuleBasedRecipe (request : RecipeGenerationRequest)
    (freshId : String) (nameChoice : Nat) : RecipeResponse :=
  let mealType := request.mealType.getD "Dinner"
  let cookingTime := request.cookingTime.getD 30
  let servings := request.servings.getD 4
  let categorizedIngredients := categorizeIngredients request.ingredients
  { success := true,
    data := some (createRuleBasedRecipe categorizedIngredients mealType
      cookingTime servings freshId nameChoice),
    error := none,
    message := some "Recipe generated using smart cooking rules" }

/-! ## NutritionCalculatorService (`src/unnamed/part_003`)
The synchronous nutrition calculator: static per-100g database, unit
conversion, per-ingredient scaling and per-recipe aggregation. -/

/-- The `nutritionDB` table: per-100g facts, in object-literal order. -/
def nutritionDB : List (String × NutritionInfo) :=
  [ ("tomato", ⟨18, 0.9, 3.9, 0.2, 1.2, 2.6, 5⟩),
    ("onion", ⟨40, 1.1, 9.3, 0.1, 1.7, 4.2, 4⟩),
    ("garlic", ⟨149, 6.4, 33.1, 0.5, 2.1, 1.0, 17⟩),
    ("potato", ⟨77, 2.0, 17.5, 0.1, 2.2, 0.8, 6⟩),
    ("carrot", ⟨41, 0.9, 9.6, 0.2, 2.8, 4.7, 69⟩),
    ("bell pepper", ⟨31, 1.0, 7.3, 0.3, 2.5, 4.2, 4⟩),
    ("spinach", ⟨23, 2.9, 3.6, 0.4, 2.2, 0.4, 79⟩),
    ("broccoli", ⟨34, 2.8, 6.6, 0.4, 2.6, 1.5, 33⟩),
    ("cucumber", ⟨16, 0.7, 4.0, 0.1, 0.5, 1.7, 2⟩),
    ("lettuce", ⟨15, 1.4, 2.9, 0.2, 1.3, 0.8, 28⟩),
    ("chicken", ⟨239, 27.3, 0, 13.6, 0, 0, 82⟩),
    ("beef", ⟨250, 26.1, 0, 15.4, 0, 0, 72⟩),
    ("fish", ⟨206, 22.0, 0, 12.4, 0, 0, 59⟩),
    ("egg", ⟨155, 13.0, 1.1, 10.6, 0, 1.1, 124⟩),
    ("tofu", ⟨76, 8.1, 1.9, 4.8, 0.3, 0.6, 7⟩),
    ("milk", ⟨42, 3.4, 5.0, 1.0, 0, 5.0, 44⟩),
    ("cheese", ⟨113, 7.1, 1.0, 9.0, 0, 1.0, 621⟩),
    ("yogurt", ⟨59, 10.0, 3.6, 0.4, 0, 3.2, 36⟩),
    ("rice", ⟨130, 2.7, 28.2, 0.3, 0.4, 0.1, 5⟩),
    ("pasta", ⟨131, 5.0, 25.0, 1.1, 1.8, 0.6, 6⟩),
    ("bread", ⟨265, 9.0, 49.0, 3.2, 2.7, 5.0, 491⟩),
    ("quinoa", ⟨120, 4.4, 22.0, 1.9, 2.8, 0.9, 7⟩),
    ("olive oil", ⟨884, 0, 0, 100, 0, 0, 2⟩),
    ("butter", ⟨717, 0.9, 0.1, 81.1, 0, 0.1, 11⟩),
    ("apple", ⟨52, 0.3, 13.8, 0.2, 2.4, 10.4, 1⟩),
    ("banana", ⟨89, 1.1, 22.8, 0.3, 2.6, 12.2, 1⟩),
    ("lemon", ⟨29, 1.1, 9.3, 0.3, 2.8, 1.5, 2⟩),
    ("basil", ⟨22, 3.2, 2.6, 0.6, 1.6, 0.3, 4⟩),
    ("oregano", ⟨265, 9.0, 68.9, 4.3, 42.5, 4.1, 25⟩),
    ("thyme", ⟨101, 5.6, 24.5, 1.7, 14.0, 1.7, 9⟩) ]

/-- `this.nutritionDB[normalizedName]`: object-property lookup. -/
def dbLookup (name : String) : Option NutritionInfo :=
  (nutritionDB.find? fun p => p.1 == name).map (·.2)

/-- Numeric value of a digit run (most significant first). -/
def digitsVal (ds : List Char) : ℕ :=
  ds.foldl (fun acc c => acc * 10 + (c.toNat - 48)) 0

/-- `parseFloat` on a string of digits and dots: longest valid numeric
prefix `digits [. digits]`, requiring at least one digit; `none` is NaN. -/
def parseLeadingFloat (cs : List Char) : Option ℚ :=
  let intPart := cs.takeWhile Char.isDigit
  let rest := cs.drop intPart.length
  let fracPart :=
    if rest.head? = some '.' then (rest.drop 1).takeWhile Char.isDigit else []
  if intPart.isEmpty && fracPart.isEmpty then none
  else some ((digitsVal intPart : ℚ) +
    (digitsVal fracPart : ℚ) / (10 : ℚ) ^ fracPart.length)

/-- `parseFloat(quantity.replace(/[^0-9.]/g, '')) || 100`: non-digit/dot
characters are stripped first; NaN is falsy, and so is a parsed 0, so both
fall back to 100. -/
def parseQuantity (quantity : String) : ℚ :=
  let cleaned := quantity.data.filter fun c => c.isDigit || c = '.'
  match parseLeadingFloat cleaned with
  | none => 100
  | some v => if v = 0 then 100 else v

/-- The `conversions` unit table of `convertToGrams`, in object-literal
order (grams per unit). -/
def unitConversions : List (String × ℚ) :=
  [ ("g", 1), ("gram", 1), ("grams", 1),
    ("kg", 1000), ("kilogram", 1000), ("kilograms", 1000),
    ("lb", 453.592), ("pound", 453.592), ("pounds", 453.592),
    ("oz", 28.3495), ("ounce", 28.3495), ("ounces", 28.3495),
    ("ml", 1), ("milliliter", 1), ("milliliters", 1),
    ("l", 1000), ("liter", 1000), ("liters", 1000),
    ("cup", 240), ("cups", 240),
    ("tbsp", 15), ("tablespoon", 15), ("tablespoons", 15),
    ("tsp", 5), ("teaspoon", 5), ("teaspoons", 5),
    ("piece", 100), ("pieces", 100),
    ("item", 100), ("items", 100),
    ("small", 80), ("medium", 150), ("large", 200),
    ("clove", 3), ("cloves", 3) ]

/-- `convertToGrams(quantity, unit)`: parsed numeric quantity times the
unit's gram multiplier; `conversions[normalizedUnit] || 100` — every
multiplier in the table is positive, so the `|| 100` fallback fires
exactly for unknown units. -/
def convertToGrams (quantity unit : String) : ℚ :=
  let numericQuantity := parseQuantity quantity
  let normalizedUnit := jsTrim (jsToLower unit)
  numericQuantity *
    (((unitConversions.find? fun p => p.1 == normalizedUnit).map (·.2)).getD 100)

/-- `isVegetable` (part_003 variant). -/
def isVegetable (name : String) : Bool :=
  (["vegetable", "cabbage", "kale", "celery", "radish", "turnip",
    "beet"].any fun veg => jsIncludes name veg) ||
  (jsEndsWith name "s" && name.length > 4)

/-- `isFruit` (part_003 variant). -/
def isFruit (name : String) : Bool :=
  ["fruit", "berry", "orange", "grape", "peach", "pear",
   "cherry"].any fun fruit => jsIncludes name fruit

/-- `isProtein` (part_003 variant). -/
def isProtein (name : String) : Bool :=
  ["meat", "protein", "turkey", "duck", "lamb", "pork", "salmon",
   "tuna"].any fun protein => jsIncludes name protein

/-- `isGrain` (part_003 variant). -/
def isGrain (name : String) : Bool :=
  ["grain", "wheat", "barley", "oats", "flour",
   "noodle"].any fun grain => jsIncludes name grain

/-- `isDairy` (part_003 variant). -/
def isDairy (name : String) : Bool :=
  ["dairy", "cream", "sour cream", "cottage cheese",
   "mozzarella"].any fun item => jsIncludes name item

/-- `getEstimatedNutrition`: category-based per-100g defaults for unknown
ingredients. -/
def getEstimatedNutrition (ingredientName : String) : NutritionInfo :=
  if isVegetable ingredientName then ⟨25, 2, 5, 0.2, 2, 3, 10⟩
  else if isFruit ingredientName then ⟨50, 0.5, 12, 0.2, 2, 8, 1⟩
  else if isProtein ingredientName then ⟨200, 20, 0, 10, 0, 0, 70⟩
  else if isGrain ingredientName then ⟨120, 3, 25, 1, 2, 1, 5⟩
  else if isDairy ingredientName then ⟨80, 5, 4, 4, 0, 4, 50⟩
  else ⟨50, 2, 8, 1, 1, 2, 20⟩

/-- JavaScript `Math.round`: round half toward positive infinity,
which is exactly Mathlib's `round` (`⌊x + 1/2⌋`). -/
def jsRound (q : ℚ) : ℚ := (round q : ℤ)

/-- `Math.round(x * 10) / 10`: round to one decimal place. -/
def roundTo1 (q : ℚ) : ℚ := ((round (q * 10) : ℤ) : ℚ) / 10

/-- `calculateIngredientNutrition`: database hit scaled by
grams/100 and rounded per field; unknown names get the category
estimate (which ignores quantity). -/
def calculateIngredientNutrition (ingredient : Ingredient) : NutritionInfo :=
  let normalizedName := jsTrim (jsToLower ingredient.name)
  match dbLookup normalizedName with
  | none => getEstimatedNutrition normalizedName
  | some baseNutrition =>
    let quantityInGrams := convertToGrams (jsOrString ingredient.quantity "100")
      (jsOrString ingredient.unit "g")
    let factor := quantityInGrams / 100
    ⟨jsRound (baseNutrition.calories * factor),
     roundTo1 (baseNutrition.protein * factor),
     roundTo1 (baseNutrition.carbs * factor),
     roundTo1 (baseNutrition.fat * factor),
     roundTo1 (baseNutrition.fiber * factor),
     roundTo1 (baseNutrition.sugar * factor),
     jsRound (baseNutrition.sodium * factor)⟩

/-- Field-wise addition of nutrition facts (the `+=` block of
`calculateRecipeNutrition`). -/
def addNutrition (a b : NutritionInfo) : NutritionInfo :=
  ⟨a.calories + b.calories, a.protein + b.protein, a.carbs + b.carbs,
   a.fat + b.fat, a.fiber + b.fiber, a.sugar + b.sugar, a.sodium + b.sodium⟩

/-- The per-serving division block of `calculateRecipeNutrition`
(calories and sodium re-rounded to integers, the rest to one decimal). -/
def perServingNutrition (total : NutritionInfo) (servings : ℚ) :
    NutritionInfo :=
  ⟨jsRound (total.calories / servings),
   roundTo1 (total.protein / servings),
   roundTo1 (total.carbs / servings),
   roundTo1 (total.fat / servings),
   roundTo1 (total.fiber / servings),
   roundTo1 (total.sugar / servings),
   jsRound (total.sodium / servings)⟩

/-- `calculateRecipeNutrition(ingredients, servings = 1)`. -/
def calculateRecipeNutrition (ingredients : List Ingredient)
    (servings : ℚ) : NutritionInfo :=
  let totalNutrition := ingredients.foldl
    (fun acc ing => addNutrition acc (calculateIngredientNutrition ing))
    zeroNutrition
  if 1 < servings then perServingNutrition totalNutrition servings
  else totalNutrition

/-- The spec's reading of aggregation: the field-wise sum over the
per-ingredient nutrition facts (to be compared with the fold the code
performs). -/
def sumNutrition (ingredients : List Ingredient) : NutritionInfo :=
  ⟨(ingredients.map fun i => (calculateIngredientNutrition i).calories).sum,
   (ingredients.map fun i => (calculateIngredientNutrition i).protein).sum,
   (ingredients.map fun i => (calculateIngredientNutrition i).carbs).sum,
   (ingredients.map fun i => (calculateIngredientNutrition i).fat).sum,
   (ingredients.map fun i => (calculateIngredientNutrition i).fiber).sum,
   (ingredients.map fun i => (calculateIngredientNutrition i).sugar).sum,
   (ingredients.map fun i => (calculateIngredientNutrition i).sodium).sum⟩

/-! ## EnhancedNutritionCalculatorService: health analysis
(`getDetailedNutritionAnalysis`) -/

/-- The result record of `getDetailedNutritionAnalysis`. -/
structure NutritionAnalysis where
  analysis : List String
  healthScore : ℤ
  recommendations : List String
deriving DecidableEq, Repr

/-- `getDetailedNutritionAnalysis`: starts at 50 and applies the fixed
threshold adjustments in source order, clamping the final score to
[0, 100].

The fat stage computes `fat * 9 / calories * 100`; when `calories = 0`
JavaScript produces NaN (if `fat = 0`; both comparisons false) or a signed
infinity (`+∞ > 35`, `-∞ < 20`), which the `calories = 0` case split below
reproduces. -/
def getDetailedNutritionAnalysis (nutrition : NutritionInfo) :
    NutritionAnalysis :=
  let start : List String × ℤ × List String := ([], 50, [])
  let afterCalories :=
    if nutrition.calories < 200 then
      (start.1 ++ ["Low calorie dish - great for weight management"],
       start.2.1 + 10, start.2.2)
    else if 600 < nutrition.calories then
      (start.1 ++ ["High calorie dish - consider portion control"],
       start.2.1 - 5,
       start.2.2 ++ ["Consider reducing portion size or adding more vegetables"])
    else start
  let afterProtein :=
    if 15 < nutrition.protein then
      (afterCalories.1 ++ ["High protein content - excellent for muscle building"],
       afterCalories.2.1 + 15, afterCalories.2.2)
    else if nutrition.protein < 5 then
      (afterCalories.1 ++ ["Low protein content"], afterCalories.2.1,
       afterCalories.2.2 ++ ["Add protein sources like beans, tofu, or lean meat"])
    else afterCalories
  let afterFiber :=
    if 5 < nutrition.fiber then
      (afterProtein.1 ++ ["High fiber content - great for digestive health"],
       afterProtein.2.1 + 10, afterProtein.2.2)
    else if nutrition.fiber < 2 then
      (afterProtein.1, afterProtein.2.1,
       afterProtein.2.2 ++ ["Add more vegetables or whole grains for fiber"])
    else afterProtein
  let afterSugar :=
    if 15 < nutrition.sugar then
      (afterFiber.1 ++ ["High sugar content"], afterFiber.2.1 - 5,
       afterFiber.2.2 ++ ["Consider reducing sweet ingredients"])
    else afterFiber
  let afterSodium :=
    if 800 < nutrition.sodium then
      (afterSugar.1 ++ ["High sodium content"], afterSugar.2.1 - 10,
       afterSugar.2.2 ++ ["Reduce salt and use herbs/spices for flavor"])
    else if nutrition.sodium < 200 then
      (afterSugar.1 ++ ["Low sodium - heart-healthy option"],
       afterSugar.2.1 + 5, afterSugar.2.2)
    else afterSugar
  let afterFat :=
    if nutrition.calories = 0 then
      if 0 < nutrition.fat then
        (afterSodium.1 ++ ["High fat content"], afterSodium.2.1 - 5,
         afterSodium.2.2)
      else if nutrition.fat < 0 then
        (afterSodium.1 ++ ["Low fat content"], afterSodium.2.1 + 5,
         afterSodium.2.2)
      else afterSodium
    else
      let fatPercentage := nutrition.fat * 9 / nutrition.calories * 100
      if 35 < fatPercentage then
        (afterSodium.1 ++ ["High fat content"], afterSodium.2.1 - 5,
         afterSodium.2.2)
      else if fatPercentage < 20 then
        (afterSodium.1 ++ ["Low fat content"], afterSodium.2.1 + 5,
         afterSodium.2.2)
      else afterSodium
  { analysis := afterFat.1,
    healthScore := max 0 (min 100 afterFat.2.1),
    recommendations := afterFat.2.2 }

/-! ## IngredientRecognitionService: ingredient suggestions
(`getIngredientSuggestions` and helpers) -/

/-- The `ingredientMappings` table, in object-literal order (note the
duplicated values: both `tomato` and `tomatoes` map to `tomato`, etc.). -/
def ingredientMappings : List (String × String) :=
  [ ("tomato", "tomato"), ("tomatoes", "tomato"),
    ("onion", "onion"), ("onions", "onion"),
    ("potato", "potato"), ("potatoes", "potato"),
    ("carrot", "carrot"), ("carrots", "carrot"),
    ("bell pepper", "bell pepper"), ("capsicum", "bell pepper"),
    ("garlic", "garlic"), ("ginger", "ginger"),
    ("spinach", "spinach"), ("lettuce", "lettuce"),
    ("cucumber", "cucumber"), ("broccoli", "broccoli"),
    ("cauliflower", "cauliflower"),
    ("mushroom", "mushroom"), ("mushrooms", "mushroom"),
    ("chicken", "chicken"), ("beef", "beef"), ("pork", "pork"),
    ("fish", "fish"), ("egg", "egg"), ("eggs", "egg"),
    ("cheese", "cheese"), ("milk", "milk"), ("bread", "bread"),
    ("rice", "rice"), ("pasta", "pasta"),
    ("lemon", "lemon"), ("lime", "lime"),
    ("apple", "apple"), ("banana", "banana"), ("orange", "orange") ]

/-- `getContextualSuggestions`. -/
def getContextualSuggestions (input : String) : List String :=
  (if ["meat", "protein", "chicken", "beef"].any (fun term => jsIncludes input term) then
    ["chicken breast", "ground beef", "salmon", "tofu"]
   else []) ++
  (if ["veg", "green", "fresh"].any (fun term => jsIncludes input term) then
    ["spinach", "broccoli", "lettuce", "cucumber"]
   else []) ++
  (if ["grain", "carb", "rice", "pasta"].any (fun term => jsIncludes input term) then
    ["brown rice", "quinoa", "whole wheat pasta"]
   else [])

/-- The `categories` table of `getCategorySuggestions`. -/
def suggestionCategories : List (String × List String) :=
  [ ("fruits", ["apple", "banana", "orange", "berries", "lemon", "lime"]),
    ("vegetables", ["tomato", "onion", "carrot", "potato", "bell pepper", "garlic"]),
    ("proteins", ["chicken", "beef", "fish", "eggs", "beans", "tofu"]),
    ("grains", ["rice", "pasta", "bread", "quinoa", "oats"]),
    ("dairy", ["milk", "cheese", "yogurt", "butter"]),
    ("spices", ["salt", "pepper", "basil", "oregano", "cumin", "paprika"]) ]

/-- `getCategorySuggestions`: the first category whose singular
(`category.slice(0, -1)`) or full name occurs in the input wins. -/
def getCategorySuggestions (input : String) : List String :=
  match suggestionCategories.find?
      (fun p => jsIncludes input ⟨p.1.data.dropLast⟩ || jsIncludes input p.1) with
  | some p => p.2
  | none => []

/-- `getIngredientSuggestions`: prefix matches over the mapping values
(without any duplicate check), then substring matches, contextual
suggestions and category suggestions (each deduplicated against the list
built so far), truncated to 8. -/
def getIngredientSuggestions (input : String) : List String :=
  let normalizedInput := jsTrim (jsToLower input)
  if normalizedInput.length < 2 then []
  else
    let vals := ingredientMappings.map (·.2)
    let exactPhase := vals.foldl
      (fun suggestions ingredient =>
        if jsStartsWith (jsToLower ingredient) normalizedInput then
          suggestions ++ [ingredient]
        else suggestions) []
    let fuzzyPhase := vals.foldl
      (fun suggestions ingredient =>
        if !suggestions.contains ingredient &&
            jsIncludes (jsToLower ingredient) normalizedInput then
          suggestions ++ [ingredient]
        else suggestions) exactPhase
    let contextualPhase := (getContextualSuggestions normalizedInput).foldl
      (fun suggestions suggestion =>
        if !suggestions.contains suggestion then suggestions ++ [suggestion]
        else suggestions) fuzzyPhase
    let categoryPhase := (getCategorySuggestions normalizedInput).foldl
      (fun suggestions suggestion =>
        if !suggestions.contains suggestion then suggestions ++ [suggestion]
        else suggestions) contextualPhase
    categoryPhase.take 8

/-- All seven nutrition fields are non-negative (the data-model invariant
the spec states for `NutritionFacts`). -/
def NutritionNonneg (n : NutritionInfo) : Prop :=
  0 ≤ n.calories ∧ 0 ≤ n.protein ∧ 0 ≤ n.carbs ∧ 0 ≤ n.fat ∧
    0 ≤ n.fiber ∧ 0 ≤ n.sugar ∧ 0 ≤ n.sodium

instance (n : NutritionInfo) : Decidable (NutritionNonneg n) := by
  unfold NutritionNonneg
  infer_instance

/-! ## Helper lemmas -/

theorem pushCategory_total (c : CategorizedIngredients) (cat : Category)
    (i : String) : bucketsTotal (pushCategory c cat i) = bucketsTotal c + 1 := by
  cases cat <;> simp [pushCategory, bucketsTotal] <;> omega

theorem categorize_go_total (ings : List String) (acc : CategorizedIngredients) :
    bucketsTotal (ings.foldl (fun a i => pushCategory a (classifyOne i) i) acc) =
      bucketsTotal acc + ings.length := by
  induction ings generalizing acc with
  | nil => simp
  | cons i t ih =>
    simp only [List.foldl_cons, ih, pushCategory_total, List.length_cons]
    omega

theorem categorize_go_buckets (ings : List String) (acc : CategorizedIngredients) :
    ings.foldl (fun a i => pushCategory a (classifyOne i) i) acc =
      ⟨acc.proteins ++ ings.filter (fun i => classifyOne i == Category.proteins),
       acc.vegetables ++ ings.filter (fun i => classifyOne i == Category.vegetables),
       acc.grains ++ ings.filter (fun i => classifyOne i == Category.grains),
       acc.dairy ++ ings.filter (fun i => classifyOne i == Category.dairy),
       acc.spices ++ ings.filter (fun i => classifyOne i == Category.spices),
       acc.others ++ ings.filter (fun i => classifyOne i == Category.others)⟩ := by
  induction ings generalizing acc with
  | nil => simp
  | cons i t ih =>
    simp only [List.foldl_cons, ih, List.filter_cons]
    cases h : classifyOne i <;>
      simp [pushCategory, h, beq_iff_eq, List.append_assoc]

/-- C2: for every ingredient list of size ≥ 1, classification assigns each
input ingredient to exactly one of the six buckets, so the bucket sizes sum
to the input size, and each bucket holds exactly the ingredients whose
first matching category (priority order proteins, vegetables, grains,
dairy, spices, by bidirectional lower-cased substring containment, with
`others` as the no-match fallback — the content of `classifyOne`) is that
bucket's category. -/
theorem classify_partitions_input (ings : List String)
    (h : 1 ≤ ings.length) :
    bucketsTotal (categorizeIngredients ings) = ings.length ∧
    (categorizeIngredients ings).proteins =
      ings.filter (fun i => classifyOne i == Category.proteins) ∧
    (categorizeIngredients ings).vegetables =
      ings.filter (fun i => classifyOne i == Category.vegetables) ∧
    (categorizeIngredients ings).grains =
      ings.filter (fun i => classifyOne i == Category.grains) ∧
    (categorizeIngredients ings).dairy =
      ings.filter (fun i => classifyOne i == Category.dairy) ∧
    (categorizeIngredients ings).spices =
      ings.filter (fun i => classifyOne i == Category.spices) ∧
    (categorizeIngredients ings).others =
      ings.filter (fun i => classifyOne i == Category.others) := by
  refine ⟨?_, ?_, ?_, ?_, ?_, ?_, ?_⟩
  · have h1 := categorize_go_total ings emptyCategories
    simpa [categorizeIngredients, bucketsTotal, emptyCategories] using h1
  all_goals
    simp [categorizeIngredients, categorize_go_buckets, emptyCategories]

theorem classify_partitions_input_witness :
    1 ≤ (["chicken", "pepper", "zzz"] : List String).length ∧
    (bucketsTotal (categorizeIngredients ["chicken", "pepper", "zzz"]) =
        (["chicken", "pepper", "zzz"] : List String).length ∧
      (categorizeIngredients ["chicken", "pepper", "zzz"]).proteins =
        (["chicken", "pepper", "zzz"] : List String).filter
          (fun i => classifyOne i == Category.proteins) ∧
      (categorizeIngredients ["chicken", "pepper", "zzz"]).vegetables =
        (["chicken", "pepper", "zzz"] : List String).filter
          (fun i => classifyOne i == Category.vegetables) ∧
      (categorizeIngredients ["chicken", "pepper", "zzz"]).grains =
        (["chicken", "pepper", "zzz"] : List String).filter
          (fun i => classifyOne i == Category.grains) ∧
      (categorizeIngredients ["chicken", "pepper", "zzz"]).dairy =
        (["chicken", "pepper", "zzz"] : List String).filter
          (fun i => classifyOne i == Category.dairy) ∧
      (categorizeIngredients ["chicken", "pepper", "zzz"]).spices =
        (["chicken", "pepper", "zzz"] : List String).filter
          (fun i => classifyOne i == Category.spices) ∧
      (categorizeIngredients ["chicken", "pepper", "zzz"]).others =
        (["chicken", "pepper", "zzz"] : List String).filter
          (fun i => classifyOne i == Category.others)) :=
  ⟨by decide, classify_partitions_input ["chicken", "pepper", "zzz"] (by decide)⟩

/-- C1: for every request with a non-empty ingredient list (including lists
of entirely unrecognized strings), the rule-based composer is total (never
throws) and returns a successful response whose recipe has at least one
step and at least one tag. -/
theorem compose_total_min_steps_tags (request : RecipeGenerationRequest)
    (freshId : String) (nameChoice : ℕ) (h : request.ingredients ≠ []) :
    ∃ recipe,
      (generateRuleBasedRecipe request freshId nameChoice).data = some recipe ∧
      (generateRuleBasedRecipe request freshId nameChoice).success = true ∧
      1 ≤ recipe.steps.length ∧ 1 ≤ recipe.tags.length := by
  refine ⟨_, rfl, rfl, ?_, ?_⟩
  · show 1 ≤ (generateCookingSteps _ _).length
    simp [generateCookingSteps]
  · show 1 ≤ (generateTags _ _).length
    simp [generateTags]

theorem compose_total_min_steps_tags_witness :
    (RecipeGenerationRequest.mk ["qwerty", "blargh"] none none none).ingredients ≠ [] ∧
    ∃ recipe,
      (generateRuleBasedRecipe
          (RecipeGenerationRequest.mk ["qwerty", "blargh"] none none none)
          "recipe_1" 0).data = some recipe ∧
      (generateRuleBasedRecipe
          (RecipeGenerationRequest.mk ["qwerty", "blargh"] none none none)
          "recipe_1" 0).success = true ∧
      1 ≤ recipe.steps.length ∧ 1 ≤ recipe.tags.length :=
  ⟨by decide,
   compose_total_min_steps_tags
     (RecipeGenerationRequest.mk ["qwerty", "blargh"] none none none)
     "recipe_1" 0 (by decide)⟩

/-! ## Nutrition lemmas -/

theorem jsRound_nonneg {q : ℚ} (h : 0 ≤ q) : 0 ≤ jsRound q := by
  unfold jsRound
  rw [round_eq]
  have hz : (0 : ℤ) ≤ ⌊q + 1 / 2⌋ := Int.le_floor.mpr (by push_cast; linarith)
  exact_mod_cast hz

theorem roundTo1_nonneg {q : ℚ} (h : 0 ≤ q) : 0 ≤ roundTo1 q := by
  unfold roundTo1
  apply div_nonneg _ (by norm_num)
  have hz : (0 : ℤ) ≤ round (q * 10) := by
    rw [round_eq]
    exact Int.le_floor.mpr (by push_cast; linarith)
  exact_mod_cast hz

theorem db_values_nonneg : ∀ p ∈ nutritionDB, NutritionNonneg p.2 := by
  with_unfolding_all decide

theorem estimate_nonneg (name : String) :
    NutritionNonneg (getEstimatedNutrition name) := by
  unfold getEstimatedNutrition
  repeat' split
  all_goals norm_num [NutritionNonneg]

theorem parseLeadingFloat_nonneg {cs : List Char} {v : ℚ}
    (h : parseLeadingFloat cs = some v) : 0 ≤ v := by
  simp only [parseLeadingFloat] at h
  split at h <;> split at h
  · exact Option.noConfusion h
  · obtain rfl := Option.some.inj h
    positivity
  · exact Option.noConfusion h
  · obtain rfl := Option.some.inj h
    positivity

theorem parseQuantity_nonneg (q : String) : 0 ≤ parseQuantity q := by
  simp only [parseQuantity]
  split
  · norm_num
  · rename_i v hv
    split
    · norm_num
    · exact parseLeadingFloat_nonneg hv

theorem unit_multipliers_nonneg : ∀ p ∈ unitConversions, 0 ≤ p.2 := by
  with_unfolding_all decide

theorem convertToGrams_nonneg (q u : String) : 0 ≤ convertToGrams q u := by
  unfold convertToGrams
  apply mul_nonneg (parseQuantity_nonneg q)
  rcases h : unitConversions.find? (fun p => p.1 == jsTrim (jsToLower u)) with
    _ | p
  · simp [h]
  · simp only [h, Option.map_some', Option.getD_some]
    exact unit_multipliers_nonneg p (List.mem_of_find?_eq_some h)

theorem calcIngredient_nonneg (ing : Ingredient) :
    NutritionNonneg (calculateIngredientNutrition ing) := by
  simp only [calculateIngredientNutrition]
  split
  · exact estimate_nonneg _
  · rename_i base h
    have hb : NutritionNonneg base := by
      unfold dbLookup at h
      obtain ⟨p, hp, rfl⟩ := Option.map_eq_some'.mp h
      exact db_values_nonneg p (List.mem_of_find?_eq_some hp)
    have hf : 0 ≤ convertToGrams (jsOrString ing.quantity "100")
        (jsOrString ing.unit "g") / 100 :=
      div_nonneg (convertToGrams_nonneg _ _) (by norm_num)
    obtain ⟨h1, h2, h3, h4, h5, h6, h7⟩ := hb
    exact ⟨jsRound_nonneg (mul_nonneg h1 hf), roundTo1_nonneg (mul_nonneg h2 hf),
      roundTo1_nonneg (mul_nonneg h3 hf), roundTo1_nonneg (mul_nonneg h4 hf),
      roundTo1_nonneg (mul_nonneg h5 hf), roundTo1_nonneg (mul_nonneg h6 hf),
      jsRound_nonneg (mul_nonneg h7 hf)⟩

theorem sum_eq_foldl (ings : List Ingredient) (acc : NutritionInfo) :
    ings.foldl (fun a i => addNutrition a (calculateIngredientNutrition i)) acc =
      addNutrition acc (sumNutrition ings) := by
  induction ings generalizing acc with
  | nil => simp [sumNutrition, addNutrition]
  | cons i t ih =>
    rw [List.foldl_cons, ih]
    simp only [sumNutrition, addNutrition, List.map_cons, List.sum_cons,
      NutritionInfo.mk.injEq]
    refine ⟨?_, ?_, ?_, ?_, ?_, ?_, ?_⟩ <;> ring

theorem sumNutrition_nonneg (ings : List Ingredient) :
    NutritionNonneg (sumNutrition ings) := by
  have key : ∀ f : NutritionInfo → ℚ,
      (∀ n, NutritionNonneg n → 0 ≤ f n) →
      0 ≤ (ings.map fun i => f (calculateIngredientNutrition i)).sum := by
    intro f hf
    apply List.sum_nonneg
    intro x hx
    simp only [List.mem_map] at hx
    obtain ⟨i, _, rfl⟩ := hx
    exact hf _ (calcIngredient_nonneg i)
  exact ⟨key _ (fun n hn => hn.1), key _ (fun n hn => hn.2.1),
    key _ (fun n hn => hn.2.2.1), key _ (fun n hn => hn.2.2.2.1),
    key _ (fun n hn => hn.2.2.2.2.1), key _ (fun n hn => hn.2.2.2.2.2.1),
    key _ (fun n hn => hn.2.2.2.2.2.2)⟩

theorem perServing_nonneg {total : NutritionInfo} {servings : ℚ}
    (ht : NutritionNonneg total) (hs : 0 < servings) :
    NutritionNonneg (perServingNutrition total servings) := by
  obtain ⟨h1, h2, h3, h4, h5, h6, h7⟩ := ht
  exact ⟨jsRound_nonneg (div_nonneg h1 hs.le), roundTo1_nonneg (div_nonneg h2 hs.le),
    roundTo1_nonneg (div_nonneg h3 hs.le), roundTo1_nonneg (div_nonneg h4 hs.le),
    roundTo1_nonneg (div_nonneg h5 hs.le), roundTo1_nonneg (div_nonneg h6 hs.le),
    jsRound_nonneg (div_nonneg h7 hs.le)⟩

/-- C4: for every ingredient list and servings ≥ 1, every field of
`calculateRecipeNutrition` is non-negative, and the result is exactly the
field-wise sum over the ingredients, divided (with the source's per-field
rounding) by `servings` only when `servings > 1`. -/
theorem recipe_nutrition_nonneg_and_sum (ings : List Ingredient)
    (servings : ℚ) (h : 1 ≤ servings) :
    NutritionNonneg (calculateRecipeNutrition ings servings) ∧
    calculateRecipeNutrition ings servings =
      (if 1 < servings then perServingNutrition (sumNutrition ings) servings
       else sumNutrition ings) := by
  have heq : calculateRecipeNutrition ings servings =
      (if 1 < servings then perServingNutrition (sumNutrition ings) servings
       else sumNutrition ings) := by
    unfold calculateRecipeNutrition
    rw [sum_eq_foldl]
    have hz : addNutrition zeroNutrition (sumNutrition ings) =
        sumNutrition ings := by
      simp [addNutrition, zeroNutrition]
    rw [hz]
  refine ⟨?_, heq⟩
  rw [heq]
  split
  · exact perServing_nonneg (sumNutrition_nonneg ings) (by linarith)
  · exact sumNutrition_nonneg ings

theorem recipe_nutrition_nonneg_and_sum_witness :
    1 ≤ (2 : ℚ) ∧
    (NutritionNonneg (calculateRecipeNutrition [⟨"i0", "tomato", "200", "g", ""⟩] 2) ∧
     calculateRecipeNutrition [⟨"i0", "tomato", "200", "g", ""⟩] 2 =
       (if 1 < (2 : ℚ) then
          perServingNutrition (sumNutrition [⟨"i0", "tomato", "200", "g", ""⟩]) 2
        else sumNutrition [⟨"i0", "tomato", "200", "g", ""⟩])) :=
  ⟨by norm_num, recipe_nutrition_nonneg_and_sum [⟨"i0", "tomato", "200", "g", ""⟩] 2 (by norm_num)⟩

/-- C5: `convertToGrams` multiplies the numeric value parsed from the
quantity (100 when unparseable) by the unit's gram multiplier; in
particular `("2","cup") = 480`, `("1","tbsp") = 15`, `("3","cloves") = 9`,
and any unit missing from the table gets multiplier 100. -/
theorem convert_to_grams_spec :
    convertToGrams "2" "cup" = 480 ∧
    convertToGrams "1" "tbsp" = 15 ∧
    convertToGrams "3" "cloves" = 9 ∧
    convertToGrams "abc" "g" = 100 ∧
    ∀ quantity unit,
      (unitConversions.find? fun p => p.1 == jsTrim (jsToLower unit)) = none →
      convertToGrams quantity unit = parseQuantity quantity * 100 := by
  refine ⟨by with_unfolding_all decide, by with_unfolding_all decide,
    by with_unfolding_all decide, by with_unfolding_all decide, ?_⟩
  intro quantity unit h
  simp only [convertToGrams]
  rw [h]
  simp

theorem convert_to_grams_spec_witness :
    (unitConversions.find? fun p => p.1 == jsTrim (jsToLower "furlong")) = none ∧
    convertToGrams "2" "furlong" = parseQuantity "2" * 100 :=
  ⟨by decide, convert_to_grams_spec.2.2.2.2 "2" "furlong" (by decide)⟩

/-- C6: `calculateRecipeNutrition` is additive at servings = 1: the
nutrition of `[A, B]` equals the field-wise sum of the nutrition of `[A]`
and of `[B]`. -/
theorem recipe_nutrition_additive (A B : Ingredient) :
    calculateRecipeNutrition [A, B] 1 =
      addNutrition (calculateRecipeNutrition [A] 1)
        (calculateRecipeNutrition [B] 1) := by
  have h : ¬ (1 : ℚ) < 1 := lt_irrefl 1
  simp only [calculateRecipeNutrition, List.foldl_cons, List.foldl_nil, if_neg h]
  simp [addNutrition, zeroNutrition]

/-- C9: resolving nutrition for 200 g of tomato yields exactly the claimed
rounded values (per-100g table row scaled by 2). -/
theorem tomato_nutrition_example :
    calculateIngredientNutrition ⟨"temp", "tomato", "200", "g", ""⟩ =
      ⟨36, 1.8, 7.8, 0.4, 2.4, 5.2, 10⟩ := by
  with_unfolding_all decide

/-! ## Health analysis (C3) -/

/-- C3 counterexample: on all-zero nutrition the health score is 65, not
the claimed baseline 50 — the zero calories earn the low-calorie +10 and
the zero sodium the low-sodium +5 (the fat-percentage term is NaN and
contributes nothing). -/
theorem health_analysis_zero_counterexample :
    (getDetailedNutritionAnalysis zeroNutrition).healthScore = 65 ∧
    (getDetailedNutritionAnalysis zeroNutrition).healthScore ≠ 50 := by
  decide

/-- C3 amended: for every non-negative nutrition input the health score
lies in [0, 100] (start at 50, apply the fixed threshold adjustments,
clamp); on all-zero input the returned score is 65, not 50. -/
theorem health_score_bounds :
    (∀ nutrition : NutritionInfo, NutritionNonneg nutrition →
      0 ≤ (getDetailedNutritionAnalysis nutrition).healthScore ∧
      (getDetailedNutritionAnalysis nutrition).healthScore ≤ 100) ∧
    (getDetailedNutritionAnalysis zeroNutrition).healthScore = 65 := by
  constructor
  · intro nutrition _
    constructor
    · exact le_max_left 0 _
    · exact max_le (by norm_num) (min_le_left _ _)
  · decide

theorem health_score_bounds_witness :
    NutritionNonneg (⟨350, 20, 30, 10, 4, 6, 500⟩ : NutritionInfo) ∧
    (0 ≤ (getDetailedNutritionAnalysis ⟨350, 20, 30, 10, 4, 6, 500⟩).healthScore ∧
     (getDetailedNutritionAnalysis ⟨350, 20, 30, 10, 4, 6, 500⟩).healthScore ≤ 100) :=
  ⟨by norm_num [NutritionNonneg],
   health_score_bounds.1 ⟨350, 20, 30, 10, 4, 6, 500⟩ (by norm_num [NutritionNonneg])⟩

/-! ## Cuisine determination (C7) -/

/-- C7 counterexample: the single ingredient "ginger" — which contains
none of the four three-keyword combinations in full — already yields
"Asian", because `determineCuisine` tests each group with `.some`. -/
theorem cuisine_single_keyword_counterexample :
    determineCuisine [⟨"ing_0", "ginger", "2", "cloves", ""⟩] = "Asian" ∧
    determineCuisine [⟨"ing_0", "ginger", "2", "cloves", ""⟩] ≠ "International" ∧
    jsIncludes (joinedIngredientNames [⟨"ing_0", "ginger", "2", "cloves", ""⟩])
      "soy sauce" = false ∧
    jsIncludes (joinedIngredientNames [⟨"ing_0", "ginger", "2", "cloves", ""⟩])
      "rice" = false ∧
    jsIncludes (joinedIngredientNames [⟨"ing_0", "ginger", "2", "cloves", ""⟩])
      "pasta" = false ∧
    jsIncludes (joinedIngredientNames [⟨"ing_0", "ginger", "2", "cloves", ""⟩])
      "cumin" = false ∧
    jsIncludes (joinedIngredientNames [⟨"ing_0", "ginger", "2", "cloves", ""⟩])
      "lime" = false := by
  decide

/-- C7 amended: cuisine is assigned by single-keyword occurrence over the
space-joined lower-cased ingredient names, with group priority Asian,
Italian, Indian, Mexican; "International" is returned exactly when no
keyword of any group occurs (so three keywords together still select the
group's cuisine, but one alone already suffices). -/
theorem cuisine_priority_characterization (ingredients : List Ingredient) :
    (determineCuisine ingredients = "International" ↔
      (asianKeywords.any
          (fun k => jsIncludes (joinedIngredientNames ingredients) k) = false ∧
       italianKeywords.any
          (fun k => jsIncludes (joinedIngredientNames ingredients) k) = false ∧
       indianKeywords.any
          (fun k => jsIncludes (joinedIngredientNames ingredients) k) = false ∧
       mexicanKeywords.any
          (fun k => jsIncludes (joinedIngredientNames ingredients) k) = false)) ∧
    (asianKeywords.any
        (fun k => jsIncludes (joinedIngredientNames ingredients) k) = true →
      determineCuisine ingredients = "Asian") ∧
    (asianKeywords.any
        (fun k => jsIncludes (joinedIngredientNames ingredients) k) = false →
     italianKeywords.any
        (fun k => jsIncludes (joinedIngredientNames ingredients) k) = true →
      determineCuisine ingredients = "Italian") ∧
    (asianKeywords.any
        (fun k => jsIncludes (joinedIngredientNames ingredients) k) = false →
     italianKeywords.any
        (fun k => jsIncludes (joinedIngredientNames ingredients) k) = false →
     indianKeywords.any
        (fun k => jsIncludes (joinedIngredientNames ingredients) k) = true →
      determineCuisine ingredients = "Indian") ∧
    (asianKeywords.any
        (fun k => jsIncludes (joinedIngredientNames ingredients) k) = false →
     italianKeywords.any
        (fun k => jsIncludes (joinedIngredientNames ingredients) k) = false →
     indianKeywords.any
        (fun k => jsIncludes (joinedIngredientNames ingredients) k) = false →
     mexicanKeywords.any
        (fun k => jsIncludes (joinedIngredientNames ingredients) k) = true →
      determineCuisine ingredients = "Mexican") := by
  cases ha : asianKeywords.any
      (fun k => jsIncludes (joinedIngredientNames ingredients) k) <;>
  cases hb : italianKeywords.any
      (fun k => jsIncludes (joinedIngredientNames ingredients) k) <;>
  cases hc : indianKeywords.any
      (fun k => jsIncludes (joinedIngredientNames ingredients) k) <;>
  cases hd : mexicanKeywords.any
      (fun k => jsIncludes (joinedIngredientNames ingredients) k) <;>
    simp only [determineCuisine, ha, hb, hc, hd] <;> simp

theorem cuisine_priority_characterization_witness :
    determineCuisine [⟨"ing_0", "basil", "1", "tsp", ""⟩] = "Italian" :=
  (cuisine_priority_characterization [⟨"ing_0", "basil", "1", "tsp", ""⟩]).2.2.1
    (by decide) (by decide)

/-! ## Cooking-step generation (C8) -/

/-- C8 counterexample: for the request ingredient "tofu" the proteins
bucket is non-empty, yet the generated step list contains no
protein-cooking step — tofu matches neither the chicken/beef/pork branch
nor the egg branch. -/
theorem steps_tofu_counterexample :
    (categorizeIngredients ["tofu"]).proteins = ["tofu"] ∧
    generateCookingSteps (categorizeIngredients ["tofu"]) 30 =
      [prepStep, stirStep, serveStep] ∧
    (generateCookingSteps (categorizeIngredients ["tofu"]) 30).all
      (fun s => !jsStartsWith s "Heat oil in a large pan" && !(s == eggStep)) =
      true := by
  decide

/-- C8 amended: the step list always begins with the prep step and ends
with the closing serve step, and is the concatenation of the prep step,
the protein segment, the vegetable segment, the grain segment, the
seasoning segment and the two closing steps; the protein segment is
non-empty exactly when some protein matches a meat keyword
(chicken/beef/pork) or contains "egg" — a non-empty proteins bucket alone
(e.g. tofu) does not produce a protein-cooking step. -/
theorem steps_structure (c : CategorizedIngredients) (t : ℚ) :
    (generateCookingSteps c t).head? = some prepStep ∧
    (generateCookingSteps c t).getLast? = some serveStep ∧
    (proteinSteps c.proteins t ≠ [] ↔
      (hasMeatProtein c.proteins = true ∨ hasEggProtein c.proteins = true)) ∧
    generateCookingSteps c t =
      [prepStep] ++ proteinSteps c.proteins t ++
        vegetableSteps c.vegetables t ++ grainSteps c.grains ++
        seasoningSteps c.spices ++ [stirStep, serveStep] := by
  refine ⟨rfl, ?_, ?_, rfl⟩
  · have hsplit : generateCookingSteps c t =
        ([prepStep] ++ proteinSteps c.proteins t ++
          vegetableSteps c.vegetables t ++ grainSteps c.grains ++
          seasoningSteps c.spices) ++ [stirStep, serveStep] := rfl
    rw [hsplit, List.getLast?_append]
    rfl
  · rcases hp : c.proteins with _ | ⟨a, l⟩
    · simp [proteinSteps, hasMeatProtein, hasEggProtein]
    · cases hm : hasMeatProtein (a :: l) <;>
      cases he : hasEggProtein (a :: l) <;>
        simp [proteinSteps, hp, hm, he]

theorem steps_structure_witness :
    proteinSteps (categorizeIngredients ["chicken"]).proteins 30 ≠ [] :=
  (steps_structure (categorizeIngredients ["chicken"]) 30).2.2.1.mpr
    (Or.inl (by decide))

/-! ## Ingredient suggestions (C10) -/

set_option maxRecDepth 100000 in
/-- C10 counterexample: `getIngredientSuggestions "to"` returns
["tomato", "tomato", "potato"] — the prefix-match loop performs no
duplicate check, so "tomato" (mapped from both "tomato" and "tomatoes")
appears twice. -/
theorem suggestions_duplicate_counterexample :
    getIngredientSuggestions "to" = ["tomato", "tomato", "potato"] ∧
    ¬ (getIngredientSuggestions "to").Nodup := by
  decide

theorem foldl_filter_append (l : List String) (p : String → Bool)
    (acc : List String) :
    l.foldl (fun a x => if p x then a ++ [x] else a) acc = acc ++ l.filter p := by
  induction l generalizing acc with
  | nil => simp
  | cons x t ih =>
    simp only [List.foldl_cons, List.filter_cons]
    cases h : p x <;> simp [h, ih]

theorem foldl_step_extends {α : Type} (f : List α → α → List α)
    (hf : ∀ a x, f a x = a ∨ f a x = a ++ [x]) (l : List α) (acc : List α) :
    ∃ r, l.foldl f acc = acc ++ r := by
  induction l generalizing acc with
  | nil => exact ⟨[], by simp⟩
  | cons x t ih =>
    simp only [List.foldl_cons]
    rcases hf acc x with h | h
    · rw [h]; exact ih acc
    · rw [h]
      obtain ⟨r, hr⟩ := ih (acc ++ [x])
      exact ⟨x :: r, by simp [hr]⟩

set_option maxRecDepth 100000 in
/-- C10 amended: suggestions are empty for normalized input shorter than
2 characters, never exceed 8 entries, and start with the prefix matches
over the mapping values (in mapping order, possibly with duplicates — the
prefix loop does not deduplicate) followed by the later phases; in
particular `suggest "to"` is ["tomato", "tomato", "potato"] (prefix
matches, duplicated "tomato", before the fuzzy-only "potato") and
`suggest "x"` is []. -/
theorem suggestions_amended :
    (∀ input : String, (jsTrim (jsToLower input)).length < 2 →
      getIngredientSuggestions input = []) ∧
    (∀ input : String, (getIngredientSuggestions input).length ≤ 8) ∧
    (∀ input : String, 2 ≤ (jsTrim (jsToLower input)).length →
      ∃ rest, getIngredientSuggestions input =
        (((ingredientMappings.map (fun p => p.2)).filter fun v =>
            jsStartsWith (jsToLower v) (jsTrim (jsToLower input))) ++ rest).take 8) ∧
    getIngredientSuggestions "to" = ["tomato", "tomato", "potato"] ∧
    getIngredientSuggestions "x" = [] := by
  refine ⟨?_, ?_, ?_, by decide, by decide⟩
  · intro input h
    simp only [getIngredientSuggestions]
    rw [if_pos h]
  · intro input
    simp only [getIngredientSuggestions]
    split
    · simp
    · exact List.length_take_le 8 _
  · intro input h
    have hn : ¬ (jsTrim (jsToLower input)).length < 2 := by omega
    simp only [getIngredientSuggestions]
    rw [if_neg hn]
    rw [foldl_filter_append]
    simp only [List.nil_append]
    obtain ⟨r2, h2⟩ := foldl_step_extends
      (fun suggestions ingredient =>
        if !suggestions.contains ingredient &&
            jsIncludes (jsToLower ingredient) (jsTrim (jsToLower input)) then
          suggestions ++ [ingredient]
        else suggestions)
      (fun a x => by dsimp only; split <;> simp)
      (ingredientMappings.map (fun p => p.2))
      ((ingredientMappings.map (fun p => p.2)).filter fun v =>
        jsStartsWith (jsToLower v) (jsTrim (jsToLower input)))
    rw [h2]
    obtain ⟨r3, h3⟩ := foldl_step_extends
      (fun suggestions suggestion =>
        if !suggestions.contains suggestion then suggestions ++ [suggestion]
        else suggestions)
      (fun a x => by dsimp only; split <;> simp)
      (getContextualSuggestions (jsTrim (jsToLower input)))
      (((ingredientMappings.map (fun p => p.2)).filter fun v =>
          jsStartsWith (jsToLower v) (jsTrim (jsToLower input))) ++ r2)
    rw [h3]
    obtain ⟨r4, h4⟩ := foldl_step_extends
      (fun suggestions suggestion =>
        if !suggestions.contains suggestion then suggestions ++ [suggestion]
        else suggestions)
      (fun a x => by dsimp only; split <;> simp)
      (getCategorySuggestions (jsTrim (jsToLower input)))
      ((((ingredientMappings.map (fun p => p.2)).filter fun v =>
          jsStartsWith (jsToLower v) (jsTrim (jsToLower input))) ++ r2) ++ r3)
    rw [h4]
    exact ⟨r2 ++ r3 ++ r4, by simp [List.append_assoc]⟩

theorem suggestions_amended_witness :
    ∃ rest, getIngredientSuggestions "to" =
      (((ingredientMappings.map (fun p => p.2)).filter fun v =>
          jsStartsWith (jsToLower v) (jsTrim (jsToLower "to"))) ++ rest).take 8 :=
  suggestions_amended.2.2.1 "to" (by decide)
